import Mathlib

/-!
Verification of the forecasting and valuation engine of the `fin_model`
repository (`backend/services/statement_calculator.py` and
`backend/services/dcf_calculation.py`).

All Python float arithmetic is embedded over `ℚ`; Python exceptions are
embedded with `Except String`; the `random.uniform` draws of the Monte
Carlo engine are embedded as an injected stream `samples : ℕ → ℚ × ℚ`.
-/

namespace FinModel

/-! ### Amortization engine
`generate_amortization_table` (statement_calculator.py, lines 1539-1574). -/

/-- One row of the loan amortization table, mirroring the Python dict with
keys period, beginning_balance, payment, interest, principal, ending_balance. -/
structure AmortRow where
  period : ℕ
  beginning_balance : ℚ
  payment : ℚ
  interest : ℚ
  principal : ℚ
  ending_balance : ℚ
deriving DecidableEq, Repr, Inhabited

/-- The loop body of `generate_amortization_table`: `fuel` counts the
remaining periods (the last iteration, `fuel = 1`, is the `period == n_periods`
branch that forces `principal = balance`, `payment = principal + interest`,
`ending_balance = 0.0`). -/
def amortFrom (payment r : ℚ) (nPeriods : ℕ) : ℕ → ℚ → List AmortRow
  | 0, _ => []
  | 1, balance =>
      let interest := balance * r
      [⟨nPeriods, balance, balance + interest, interest, balance, 0⟩]
  | (fuel+2), balance =>
      let interest := balance * r
      let principal := payment - interest
      let ending := balance - principal
      ⟨nPeriods - (fuel+1), balance, payment, interest, principal, ending⟩ ::
        amortFrom payment r nPeriods (fuel+1) ending

/-- `generate_amortization_table(loan_amount, annual_rate, years, periods_per_year)`. -/
def generate_amortization_table (loan_amount annual_rate : ℚ)
    (years periods_per_year : ℕ) : List AmortRow :=
  let nPeriods := years * periods_per_year
  if nPeriods = 0 then []
  else
    let period_rate := annual_rate / (periods_per_year : ℚ)
    let payment :=
      if 0 < period_rate then
        loan_amount * (period_rate * (1 + period_rate) ^ nPeriods) /
          ((1 + period_rate) ^ nPeriods - 1)
      else loan_amount / (nPeriods : ℚ)
    amortFrom payment period_rate nPeriods nPeriods loan_amount

theorem amortFrom_length (payment r : ℚ) (nP : ℕ) :
    ∀ (fuel : ℕ) (b : ℚ), (amortFrom payment r nP fuel b).length = fuel
  | 0, _ => rfl
  | 1, _ => rfl
  | (fuel+2), b => by
      simp [amortFrom, amortFrom_length payment r nP (fuel+1)]

theorem amortFrom_rows (payment r : ℚ) (nP : ℕ) :
    ∀ (fuel : ℕ) (b : ℚ), ∀ row ∈ amortFrom payment r nP fuel b,
      row.interest = row.beginning_balance * r ∧
      row.principal = row.payment - row.interest ∧
      row.ending_balance = row.beginning_balance - row.principal
  | 0, _ => by simp [amortFrom]
  | 1, b => by
      intro row hrow
      simp only [amortFrom, List.mem_singleton] at hrow
      subst hrow
      refine ⟨rfl, by ring_nf, by ring_nf⟩
  | (fuel+2), b => by
      intro row hrow
      simp only [amortFrom, List.mem_cons] at hrow
      rcases hrow with h | h
      · subst h
        exact ⟨rfl, rfl, rfl⟩
      · exact amortFrom_rows payment r nP (fuel+1) _ row h

theorem amortFrom_get_zero (payment r : ℚ) (nP : ℕ) :
    ∀ (fuel : ℕ) (b : ℚ) (row : AmortRow),
      (amortFrom payment r nP fuel b).get? 0 = some row →
      row.beginning_balance = b
  | 0, b, row => by simp [amortFrom]
  | 1, b, row => by
      intro h
      simp only [amortFrom, List.get?_cons_zero, Option.some.injEq] at h
      subst h; rfl
  | (fuel+2), b, row => by
      intro h
      simp only [amortFrom, List.get?_cons_zero, Option.some.injEq] at h
      subst h; rfl

theorem amortFrom_chain (payment r : ℚ) (nP : ℕ) :
    ∀ (fuel : ℕ) (b : ℚ) (i : ℕ) (ri rj : AmortRow),
      (amortFrom payment r nP fuel b).get? i = some ri →
      (amortFrom payment r nP fuel b).get? (i+1) = some rj →
      rj.beginning_balance = ri.ending_balance
  | 0, _, i, _, _ => by simp [amortFrom]
  | 1, b, i, ri, rj => by
      intro _ hj
      rcases i with _ | i <;> simp [amortFrom] at hj
  | (fuel+2), b, i, ri, rj => by
      intro hi hj
      rcases i with _ | i
      · simp only [amortFrom, List.get?_cons_zero, Option.some.injEq] at hi
        simp only [amortFrom, List.get?_cons_succ] at hj
        have hh := amortFrom_get_zero payment r nP (fuel+1) _ rj hj
        subst hi
        exact hh
      · simp only [amortFrom, List.get?_cons_succ] at hi hj
        exact amortFrom_chain payment r nP (fuel+1) _ i ri rj hi hj

theorem amortFrom_last (payment r : ℚ) (nP : ℕ) :
    ∀ (fuel : ℕ) (b : ℚ), 0 < fuel →
      (amortFrom payment r nP fuel b).getLast?.map AmortRow.ending_balance = some 0
  | 0, _, h => absurd h (by omega)
  | 1, b, _ => rfl
  | (fuel+2), b, _ => by
      have ih := amortFrom_last payment r nP (fuel+1) (b - (payment - b * r)) (by omega)
      rcases hl : amortFrom payment r nP (fuel+1) (b - (payment - b * r)) with _ | ⟨x, xs⟩
      · have := amortFrom_length payment r nP (fuel+1) (b - (payment - b * r))
        rw [hl] at this
        simp at this
      · rw [hl] at ih
        simpa [amortFrom, hl, List.getLast?_cons_cons] using ih

theorem amortFrom_principal_sum (payment r : ℚ) (nP : ℕ) :
    ∀ (fuel : ℕ) (b : ℚ), 0 < fuel →
      ((amortFrom payment r nP fuel b).map AmortRow.principal).sum = b
  | 0, _, h => absurd h (by omega)
  | 1, b, _ => by simp [amortFrom]
  | (fuel+2), b, _ => by
      have ih := amortFrom_principal_sum payment r nP (fuel+1) (b - (payment - b * r))
        (by omega)
      simp only [amortFrom, List.map_cons, List.sum_cons, ih]
      ring

/-- C1: for principal `P > 0`, annual rate `r > 0`, integer term `n ≥ 1` and
`periods_per_year = 1`, the table returned by `generate_amortization_table`
has exactly `n` rows; every row satisfies `interest = beginning_balance * r`,
`principal = payment - interest` and `ending_balance = beginning_balance - principal`;
consecutive rows chain (`beginning_balance` of row `i+1` equals `ending_balance`
of row `i`); the final row has `ending_balance = 0` exactly; and the principal
column sums exactly to `P` (hence within `1e-6` of `P`). -/
theorem C1_amortization_table (P r : ℚ) (n : ℕ)
    (hP : 0 < P) (hr : 0 < r) (hn : 1 ≤ n) :
    (generate_amortization_table P r n 1).length = n ∧
    (∀ row ∈ generate_amortization_table P r n 1,
      row.interest = row.beginning_balance * r ∧
      row.principal = row.payment - row.interest ∧
      row.ending_balance = row.beginning_balance - row.principal) ∧
    (∀ (i : ℕ) (ri rj : AmortRow),
      (generate_amortization_table P r n 1).get? i = some ri →
      (generate_amortization_table P r n 1).get? (i+1) = some rj →
      rj.beginning_balance = ri.ending_balance) ∧
    (generate_amortization_table P r n 1).getLast?.map AmortRow.ending_balance = some 0 ∧
    ((generate_amortization_table P r n 1).map AmortRow.principal).sum = P := by
  have hr1 : r / ((1 : ℕ) : ℚ) = r := by norm_num
  have hne : ¬ (n * 1 = 0) := by omega
  have htab : generate_amortization_table P r n 1 =
      amortFrom (P * (r * (1 + r) ^ (n * 1)) / ((1 + r) ^ (n * 1) - 1)) r (n * 1) (n * 1) P := by
    simp only [generate_amortization_table, if_neg hne, hr1, if_pos hr]
  rw [htab]
  refine ⟨?_, ?_, ?_, ?_, ?_⟩
  · rw [amortFrom_length]; omega
  · exact amortFrom_rows _ r (n * 1) (n * 1) P
  · exact fun i ri rj hi hj => amortFrom_chain _ r (n * 1) (n * 1) P i ri rj hi hj
  · exact amortFrom_last _ r (n * 1) (n * 1) P (by omega)
  · exact amortFrom_principal_sum _ r (n * 1) (n * 1) P (by omega)

/-- Witness for C1 at `P = 1000`, `r = 1/20`, `n = 3`. -/
theorem C1_amortization_table_witness :
    (0 : ℚ) < 1000 ∧ (0 : ℚ) < 1/20 ∧ 1 ≤ 3 ∧
    ((generate_amortization_table 1000 (1/20) 3 1).length = 3 ∧
    (∀ row ∈ generate_amortization_table 1000 (1/20) 3 1,
      row.interest = row.beginning_balance * (1/20) ∧
      row.principal = row.payment - row.interest ∧
      row.ending_balance = row.beginning_balance - row.principal) ∧
    (∀ (i : ℕ) (ri rj : AmortRow),
      (generate_amortization_table 1000 (1/20) 3 1).get? i = some ri →
      (generate_amortization_table 1000 (1/20) 3 1).get? (i+1) = some rj →
      rj.beginning_balance = ri.ending_balance) ∧
    (generate_amortization_table 1000 (1/20) 3 1).getLast?.map
      AmortRow.ending_balance = some 0 ∧
    ((generate_amortization_table 1000 (1/20) 3 1).map AmortRow.principal).sum = 1000) :=
  ⟨by norm_num, by norm_num, by norm_num,
    C1_amortization_table 1000 (1/20) 3 (by norm_num) (by norm_num) (by norm_num)⟩

/-! ### Depreciation engine
`calc_depr_straight_line`, `calc_depr_double_declining`, `calc_depr_syd`
(statement_calculator.py, lines 142-170). -/

/-- `calc_depr_straight_line(cost, useful_life, salvage)`:
`[(cost - salvage) / useful_life for _ in range(useful_life)]`. -/
def calc_depr_straight_line (cost : ℚ) (useful_life : ℕ) (salvage : ℚ) : List ℚ :=
  List.replicate useful_life ((cost - salvage) / (useful_life : ℚ))

/-- The loop of `calc_depr_double_declining`, with the early `break` once the
book value reaches salvage. -/
def ddbLoop (rate salvage : ℚ) : ℕ → ℚ → List ℚ
  | 0, _ => []
  | (fuel+1), book =>
      let d0 := book * rate
      let d := if book - d0 < salvage then book - salvage else d0
      let entry := max d 0
      let book1 := book - d
      if book1 ≤ salvage then [entry]
      else entry :: ddbLoop rate salvage fuel book1

/-- `calc_depr_double_declining(cost, useful_life, salvage)`: declining-balance
at rate `2 / useful_life`, capped at salvage, zero-padded to `useful_life`. -/
def calc_depr_double_declining (cost : ℚ) (useful_life : ℕ) (salvage : ℚ) : List ℚ :=
  let rate : ℚ := 2 / (useful_life : ℚ)
  let depr := ddbLoop rate salvage useful_life cost
  depr ++ List.replicate (useful_life - depr.length) 0

/-- `calc_depr_syd(cost, useful_life, salvage)`: year `k` (0-indexed) gets
`(useful_life - k) / syd * (cost - salvage)` with `syd = L*(L+1)//2`. -/
def calc_depr_syd (cost : ℚ) (useful_life : ℕ) (salvage : ℚ) : List ℚ :=
  let syd : ℕ := useful_life * (useful_life + 1) / 2
  (List.range useful_life).map (fun year =>
    (((useful_life - year : ℕ) : ℚ) / (syd : ℚ)) * (cost - salvage))

theorem list_range_map_sum {M : Type*} [AddCommMonoid M] (n : ℕ) (f : ℕ → M) :
    ((List.range n).map f).sum = ∑ i ∈ Finset.range n, f i := by
  induction n with
  | zero => simp
  | succ n ih =>
      rw [List.range_succ, Finset.sum_range_succ, List.map_append, List.sum_append, ih]
      simp

theorem sum_range_sub_cast (L : ℕ) (hL : 1 ≤ L) :
    ∑ k ∈ Finset.range L, ((L - k : ℕ) : ℚ) = (L : ℚ) * ((L : ℚ) + 1) / 2 := by
  have hcongr : ∑ k ∈ Finset.range L, ((L - k : ℕ) : ℚ) =
      ∑ k ∈ Finset.range L, ((L : ℚ) - (k : ℚ)) := by
    refine Finset.sum_congr rfl (fun k hk => ?_)
    have hk' : k ≤ L := le_of_lt (Finset.mem_range.mp hk)
    exact Nat.cast_sub hk'
  have hgauss_nat : (∑ i ∈ Finset.range L, i) * 2 = L * (L - 1) :=
    Finset.sum_range_id_mul_two L
  have hgauss : (∑ k ∈ Finset.range L, (k : ℚ)) * 2 = (L : ℚ) * ((L : ℚ) - 1) := by
    have h1 : ((L - 1 : ℕ) : ℚ) = (L : ℚ) - 1 := by
      exact Nat.cast_sub hL
    calc (∑ k ∈ Finset.range L, (k : ℚ)) * 2
        = (((∑ i ∈ Finset.range L, i) * 2 : ℕ) : ℚ) := by push_cast; ring
      _ = ((L * (L - 1) : ℕ) : ℚ) := by rw [hgauss_nat]
      _ = (L : ℚ) * ((L : ℚ) - 1) := by rw [Nat.cast_mul, h1]
  rw [hcongr, Finset.sum_sub_distrib, Finset.sum_const, Finset.card_range, nsmul_eq_mul]
  linarith

theorem syd_nat_cast (L : ℕ) :
    ((L * (L + 1) / 2 : ℕ) : ℚ) = (L : ℚ) * ((L : ℚ) + 1) / 2 := by
  rw [Nat.cast_div (Nat.even_mul_succ_self L).two_dvd (by norm_num)]
  push_cast
  ring

/-- C2 counterexample: the double-declining schedule for cost 100, useful
life 3, salvage 0 sums to 2600/27, not to cost - salvage = 100 (the
declining-balance recursion never reaches a zero salvage floor). -/
theorem C2_counterexample_double_declining :
    (calc_depr_double_declining 100 3 0).sum ≠ 100 - 0 := by
  norm_num [calc_depr_double_declining, ddbLoop, max_def]

/-- C2 as amended: before the first-period scaling, the straight-line and
sum-of-years-digits schedules for cost `C`, salvage `S`, useful life `L ≥ 1`
sum exactly to `C - S`; the double-declining schedule does not in general. -/
theorem C2_straight_line_syd_sum (C S : ℚ) (L : ℕ) (hL : 1 ≤ L) :
    (calc_depr_straight_line C L S).sum = C - S ∧
    (calc_depr_syd C L S).sum = C - S := by
  have hL0 : ((L : ℚ)) ≠ 0 := by
    simpa using Nat.cast_ne_zero.mpr (by omega : L ≠ 0)
  constructor
  · rw [calc_depr_straight_line, List.sum_replicate, nsmul_eq_mul]
    field_simp
  · rw [calc_depr_syd, list_range_map_sum]
    have hsyd := syd_nat_cast L
    have hmul : ∀ k ∈ Finset.range L,
        (((L - k : ℕ) : ℚ) / ((L * (L + 1) / 2 : ℕ) : ℚ)) * (C - S) =
        ((C - S) / ((L * (L + 1) / 2 : ℕ) : ℚ)) * ((L - k : ℕ) : ℚ) := by
      intro k _; ring
    rw [Finset.sum_congr rfl hmul, ← Finset.mul_sum, sum_range_sub_cast L hL, hsyd]
    have h1 : (0 : ℚ) < (L : ℚ) := by exact_mod_cast (by omega : 0 < L)
    have h2 : (L : ℚ) * ((L : ℚ) + 1) / 2 ≠ 0 := by positivity
    field_simp

/-- Witness for C2's amended theorem at `C = 100`, `S = 10`, `L = 4`. -/
theorem C2_straight_line_syd_sum_witness :
    1 ≤ 4 ∧ ((calc_depr_straight_line 100 4 10).sum = 100 - 10 ∧
      (calc_depr_syd 100 4 10).sum = 100 - 10) :=
  ⟨by norm_num, C2_straight_line_syd_sum 100 10 4 (by norm_num)⟩

/-! ### Valuation engine: payback period
`calculate_payback_period` (dcf_calculation.py, lines 102-118). -/

/-- The loop of `calculate_payback_period`: walks the cash flows carrying the
running cumulative sum and the enumeration index `i`; returns at the first
index where the previous cumulative is strictly negative and the new
cumulative is non-negative. -/
def paybackGo : List ℚ → ℚ → ℕ → Option ℚ
  | [], _, _ => none
  | cf :: rest, cumulative, i =>
      let prev := cumulative
      let cum := cumulative + cf
      if prev < 0 ∧ 0 ≤ cum then
        some (if cf ≠ 0 then (i : ℚ) - prev / cf else (i : ℚ))
      else paybackGo rest cum (i + 1)

/-- `calculate_payback_period(cash_flows)`: `None` (here `none`) when payback
never occurs. -/
def calculate_payback_period (cash_flows : List ℚ) : Option ℚ :=
  paybackGo cash_flows 0 0

theorem paybackGo_none_iff : ∀ (l : List ℚ) (c : ℚ) (i : ℕ),
    paybackGo l c i = none ↔
      ∀ j < l.length, ¬ (c + (l.take j).sum < 0 ∧ 0 ≤ c + (l.take (j+1)).sum)
  | [], c, i => by simp [paybackGo]
  | cf :: rest, c, i => by
      by_cases hcond : c < 0 ∧ 0 ≤ c + cf
      · simp only [paybackGo, if_pos hcond]
        constructor
        · intro h; cases h
        · intro h
          exact absurd (by simpa using hcond) (h 0 (by simp))
      · simp only [paybackGo, if_neg hcond]
        rw [paybackGo_none_iff rest (c + cf) (i + 1)]
        constructor
        · intro h j hj
          rcases j with _ | j
          · simpa using hcond
          · have := h j (by simpa using Nat.lt_of_succ_lt_succ hj)
            simpa [List.take_succ_cons, add_assoc] using this
        · intro h j hj
          have := h (j + 1) (by simpa using Nat.succ_lt_succ hj)
          simpa [List.take_succ_cons, add_assoc] using this

/-- C9: `calculate_payback_period` returns `none` exactly when no index `i`
has a strictly negative cumulative sum of the first `i` flows immediately
followed by a non-negative cumulative sum of the first `i+1` flows; in
particular it returns `none` whenever the running cumulative is never
strictly negative (e.g. all-non-negative series), and a `some` result occurs
only at such a negative-to-non-negative crossing. -/
theorem C9_payback_none_iff (cash_flows : List ℚ) :
    calculate_payback_period cash_flows = none ↔
      ∀ j < cash_flows.length,
        ¬ ((cash_flows.take j).sum < 0 ∧ 0 ≤ (cash_flows.take (j+1)).sum) := by
  rw [calculate_payback_period, paybackGo_none_iff]
  simp

/-- Witness for C9: the all-non-negative series `[5, 10]` is never paid back. -/
theorem C9_payback_none_iff_witness : calculate_payback_period [5, 10] = none :=
  (C9_payback_none_iff [5, 10]).mpr (by
    intro j hj
    simp only [List.length_cons, List.length_nil] at hj
    interval_cases j <;> norm_num)

/-- C4 counterexample: on `[-100, 50, 60]` the code returns
`2 - (-50/60) = 17/6 ≈ 2.833`, not `1 - (-50/60) = 11/6 ≈ 1.833`: the
cumulative crosses from negative to non-negative at index `i = 2`, so the
interpolation `period = i - prev_cumulative/cf_i` is evaluated at `i = 2`. -/
theorem C4_counterexample_payback :
    calculate_payback_period [-100, 50, 60] ≠ some (1 - (-50/60)) := by
  norm_num [calculate_payback_period, paybackGo]

/-- C4 as amended: `calculate_payback_period([-100, 50, 60])` returns
`2 - (-50/60) = 17/6 ≈ 2.833`, the linear interpolation at the crossing
index `i = 2` (cumulative `-50` after two flows, `10` after three). -/
theorem C4_payback_value :
    calculate_payback_period [-100, 50, 60] = some (2 - (-50/60)) := by
  norm_num [calculate_payback_period, paybackGo]

/-! ### Valuation engine: terminal value, DCF, NPV
(dcf_calculation.py, lines 13-72). -/

/-- `calculate_terminal_value(method, last_fcf, discount_rate, terminal_growth,
tv_metric_value, tv_multiple, tv_custom_value)`. -/
def calculate_terminal_value (method : String)
    (last_fcf discount_rate terminal_growth tv_metric_value tv_multiple
      tv_custom_value : ℚ) : ℚ :=
  if method = "perpetuity" then
    if 1/1000 < discount_rate - terminal_growth then
      last_fcf * (1 + terminal_growth) / (discount_rate - terminal_growth)
    else 0
  else if method = "exit-multiple" then tv_metric_value * tv_multiple
  else if method = "liquidation" then tv_custom_value
  else 0

/-- `calculate_dcf_value(free_cash_flows, discount_rate, terminal_value,
terminal_year)`: flows discounted from `t = 1`. -/
def calculate_dcf_value (free_cash_flows : List ℚ) (discount_rate : ℚ)
    (terminal_value : Option ℚ) (terminal_year : Option ℕ) : ℚ :=
  let dcf := (free_cash_flows.enum.map
    (fun p => p.2 / (1 + discount_rate) ^ (p.1 + 1))).sum
  match terminal_value with
  | none => dcf
  | some tv =>
      match terminal_year with
      | some ty => dcf + tv / (1 + discount_rate) ^ ty
      | none => dcf + tv / (1 + discount_rate) ^ free_cash_flows.length

/-- `calculate_npv(cash_flows, discount_rate)`: flows discounted from `t = 0`. -/
def calculate_npv (cash_flows : List ℚ) (discount_rate : ℚ) : ℚ :=
  (cash_flows.enum.map (fun p => p.2 / (1 + discount_rate) ^ p.1)).sum

/-! ### Monte Carlo engine
`monte_carlo_npv_simulation` (dcf_calculation.py, lines 175-204). Python's
`free_cash_flows[-1]` raises `IndexError` on an empty list; this is embedded
with `Except String`. The `random.uniform` draws are an injected stream
`samples : ℕ → ℚ × ℚ` of (discount rate, terminal growth) pairs. -/

/-- Python `xs[-1]`: the last element, or an `IndexError` on an empty list. -/
def lastElem (xs : List ℚ) : Except String ℚ :=
  match xs.getLast? with
  | some v => .ok v
  | none => .error "IndexError: list index out of range"

/-- The trial loop of `monte_carlo_npv_simulation`: trial `j` draws
`samples j`, builds a perpetuity terminal value from the last FCF, appends it
and takes the NPV at the sampled discount rate. -/
def mcRun (free_cash_flows : List ℚ) (samples : ℕ → ℚ × ℚ) :
    ℕ → ℕ → Except String (List ℚ)
  | _, 0 => .ok []
  | j, (fuel+1) =>
      match lastElem free_cash_flows with
      | .error e => .error e
      | .ok last =>
          let dr := (samples j).1
          let tg := (samples j).2
          let terminal_value := calculate_terminal_value "perpetuity" last dr tg 0 0 0
          let npv := calculate_npv (free_cash_flows ++ [terminal_value]) dr
          match mcRun free_cash_flows samples (j+1) fuel with
          | .error e => .error e
          | .ok rest => .ok (npv :: rest)

/-- The fixed bin labels of the histogram. -/
def bin_labels : List String :=
  ["<0", "0-100k", "100k-200k", "200k-300k", "300k-400k", "400k-500k", ">500k"]

/-- The finite cut points of `bins = [-inf, 0, 100_000, ..., 500_000, inf]`. -/
def binCutoffs : List ℚ := [0, 100000, 200000, 300000, 400000, 500000]

/-- The bin an NPV falls into: the Python loop finds the first `i` with
`bins[i] <= npv < bins[i+1]`, which is the number of finite cut points
`≤ npv`. -/
def binIndexOf (npv : ℚ) : ℕ :=
  binCutoffs.countP (fun c => decide (c ≤ npv))

/-- `monte_carlo_npv_simulation(free_cash_flows, discount_rate_range,
terminal_growth_range, runs)`: the returned histogram pairs each bin label
with the number of trial NPVs falling in that bin. -/
def monte_carlo_npv_simulation (free_cash_flows : List ℚ)
    (samples : ℕ → ℚ × ℚ) (runs : ℕ) : Except String (List (String × ℕ)) :=
  match mcRun free_cash_flows samples 0 runs with
  | .error e => .error e
  | .ok npv_results =>
      .ok (bin_labels.enum.map
        (fun p => (p.2, npv_results.countP (fun v => binIndexOf v == p.1))))

theorem mcRun_ok (fcf : List ℚ) (samples : ℕ → ℚ × ℚ) (hfcf : fcf ≠ []) :
    ∀ (fuel j : ℕ), ∃ npvs, mcRun fcf samples j fuel = .ok npvs ∧
      npvs.length = fuel := by
  intro fuel
  induction fuel with
  | zero => exact fun j => ⟨[], rfl, rfl⟩
  | succ fuel ih =>
      intro j
      have hne : fcf.getLast? ≠ none := fun h => hfcf (List.getLast?_eq_none_iff.mp h)
      obtain ⟨v, hv⟩ := Option.ne_none_iff_exists.mp hne
      obtain ⟨rest, hrest, hlen⟩ := ih (j+1)
      refine ⟨calculate_npv (fcf ++ [calculate_terminal_value "perpetuity" v
        (samples j).1 (samples j).2 0 0 0]) (samples j).1 :: rest, ?_, ?_⟩
      · simp only [mcRun, lastElem, ← hv, hrest]
      · simp [hlen]

theorem binIndexOf_lt (v : ℚ) : binIndexOf v < 7 := by
  have h : binIndexOf v ≤ binCutoffs.length :=
    List.countP_le_length _
  have hlen : binCutoffs.length = 6 := rfl
  omega

theorem bin_counts_sum (npvs : List ℚ) :
    npvs.countP (fun v => binIndexOf v == 0) +
    npvs.countP (fun v => binIndexOf v == 1) +
    npvs.countP (fun v => binIndexOf v == 2) +
    npvs.countP (fun v => binIndexOf v == 3) +
    npvs.countP (fun v => binIndexOf v == 4) +
    npvs.countP (fun v => binIndexOf v == 5) +
    npvs.countP (fun v => binIndexOf v == 6) = npvs.length := by
  induction npvs with
  | nil => rfl
  | cons v rest ih =>
      simp only [List.countP_cons, List.length_cons]
      have hv : binIndexOf v < 7 := binIndexOf_lt v
      have h7 : binIndexOf v = 0 ∨ binIndexOf v = 1 ∨ binIndexOf v = 2 ∨
          binIndexOf v = 3 ∨ binIndexOf v = 4 ∨ binIndexOf v = 5 ∨
          binIndexOf v = 6 := by omega
      rcases h7 with h | h | h | h | h | h | h <;> simp [h] <;> omega

/-- C8: for every non-empty FCF series, every pair of sampled-rate streams
within the given valid ranges, and every run count `R`, the Monte Carlo
simulation returns (rather than raising) a histogram whose bins are, in
order, `<0, 0-100k, 100k-200k, 200k-300k, 300k-400k, 400k-500k, >500k` and
whose seven counts sum exactly to `R`. -/
theorem C8_monte_carlo_histogram (fcf : List ℚ) (samples : ℕ → ℚ × ℚ)
    (runs : ℕ) (dr_lo dr_hi tg_lo tg_hi : ℚ) (hfcf : fcf ≠ [])
    (hvalid : -1 < dr_lo)
    (hs : ∀ j, dr_lo ≤ (samples j).1 ∧ (samples j).1 ≤ dr_hi ∧
      tg_lo ≤ (samples j).2 ∧ (samples j).2 ≤ tg_hi) :
    ∃ hist, monte_carlo_npv_simulation fcf samples runs = .ok hist ∧
      hist.map Prod.fst = bin_labels ∧
      (hist.map Prod.snd).sum = runs := by
  obtain ⟨npvs, hok, hlen⟩ := mcRun_ok fcf samples hfcf runs 0
  refine ⟨bin_labels.enum.map
    (fun p => (p.2, npvs.countP (fun v => binIndexOf v == p.1))), ?_, ?_, ?_⟩
  · simp only [monte_carlo_npv_simulation, hok]
  · simp [bin_labels, List.enum]
  · have hsum := bin_counts_sum npvs
    show npvs.countP (fun v => binIndexOf v == 0) +
      (npvs.countP (fun v => binIndexOf v == 1) +
      (npvs.countP (fun v => binIndexOf v == 2) +
      (npvs.countP (fun v => binIndexOf v == 3) +
      (npvs.countP (fun v => binIndexOf v == 4) +
      (npvs.countP (fun v => binIndexOf v == 5) +
      (npvs.countP (fun v => binIndexOf v == 6) + 0)))))) = runs
    omega

/-- Witness for C8: FCF `[100000]`, constant samples `(1/10, 1/50)`, 2 runs. -/
theorem C8_monte_carlo_histogram_witness :
    ∃ hist, monte_carlo_npv_simulation [100000] (fun _ => (1/10, 1/50)) 2 = .ok hist ∧
      hist.map Prod.fst = bin_labels ∧ (hist.map Prod.snd).sum = 2 :=
  C8_monte_carlo_histogram [100000] (fun _ => (1/10, 1/50)) 2 (1/10) (1/10)
    (1/50) (1/50) (by simp) (by norm_num)
    (fun j => ⟨le_rfl, le_rfl, le_rfl, le_rfl⟩)

/-! ### Sensitivity engine: tornado
`calculate_tornado_data` (dcf_calculation.py, lines 140-172). -/

/-- One entry of `variable_impacts`: `{'low': ..., 'high': ..., 'type': ...}`. -/
structure Impact where
  low : ℚ
  high : ℚ
  type : String
deriving DecidableEq

/-- The body of the tornado loop for one variable: the pair
`(dcf_low, dcf_high)`. For a `"fcf"`-type variable the scaled series is
indexed with `[-1]`, which raises on an empty FCF list. -/
def tornadoEntry (fcf : List ℚ) (base_dr base_tg base_last base_dcf : ℚ)
    (tvf : ℚ → ℚ → ℚ → ℚ) (imp : Impact) : Except String (ℚ × ℚ) :=
  if imp.type = "fcf" then
    let fcf_low := fcf.map (· * imp.low)
    let fcf_high := fcf.map (· * imp.high)
    match lastElem fcf_low, lastElem fcf_high with
    | .ok ll, .ok lh =>
        .ok (calculate_dcf_value fcf_low base_dr (some (tvf ll base_tg base_dr)) none,
          calculate_dcf_value fcf_high base_dr (some (tvf lh base_tg base_dr)) none)
    | .error e, _ => .error e
    | _, .error e => .error e
  else if imp.type = "wacc" then
    .ok (calculate_dcf_value fcf imp.low (some (tvf base_last base_tg imp.low)) none,
      calculate_dcf_value fcf imp.high (some (tvf base_last base_tg imp.high)) none)
  else if imp.type = "growth" then
    .ok (calculate_dcf_value fcf base_dr (some (tvf base_last imp.low base_dr)) none,
      calculate_dcf_value fcf base_dr (some (tvf base_last imp.high base_dr)) none)
  else .ok (base_dcf, base_dcf)

def tornadoLoop (fcf : List ℚ) (base_dr base_tg base_last base_dcf : ℚ)
    (tvf : ℚ → ℚ → ℚ → ℚ) :
    List (String × Impact) → Except String (List (String × ℚ × ℚ × ℚ))
  | [] => .ok []
  | (var, imp) :: rest =>
      match tornadoEntry fcf base_dr base_tg base_last base_dcf tvf imp with
      | .error e => .error e
      | .ok (lo, hi) =>
          match tornadoLoop fcf base_dr base_tg base_last base_dcf tvf rest with
          | .error e => .error e
          | .ok tail => .ok ((var, lo, hi, base_dcf) :: tail)

/-- `calculate_tornado_data(free_cash_flows, base_discount_rate,
base_terminal_growth, variable_impacts, terminal_value_func)`; the base
last FCF is guarded (`free_cash_flows[-1] if free_cash_flows else 0`). -/
def calculate_tornado_data (fcf : List ℚ) (base_dr base_tg : ℚ)
    (variable_impacts : List (String × Impact)) (tvf : ℚ → ℚ → ℚ → ℚ) :
    Except String (List (String × ℚ × ℚ × ℚ)) :=
  let base_last := fcf.getLast?.getD 0
  let base_dcf := calculate_dcf_value fcf base_dr (some (tvf base_last base_tg base_dr)) none
  tornadoLoop fcf base_dr base_tg base_last base_dcf tvf variable_impacts

/-- C6 (refuting theorem): with an empty free-cash-flow list the engine
raises instead of returning zero-valued results - `monte_carlo_npv_simulation`
evaluates `free_cash_flows[-1]` on every trial and hits an `IndexError` for
any positive run count, and `calculate_tornado_data` does the same for any
`"fcf"`-type variable; so the claimed policy (empty input degrades to
zero/empty results and only InvalidInput propagates) is violated. -/
theorem C6_empty_fcf_raises :
    monte_carlo_npv_simulation [] (fun _ => (1/10, 1/50)) 1 =
      .error "IndexError: list index out of range" ∧
    calculate_tornado_data [] (1/10) (1/50)
      [("fcf_swing", ⟨8/10, 12/10, "fcf"⟩)]
      (fun last g r => calculate_terminal_value "perpetuity" last r g 0 0 0) =
      .error "IndexError: list index out of range" :=
  ⟨rfl, rfl⟩

/-! ### Sector builders: input validation and empty driver lists
`calculate_saas_statements` (statement_calculator.py, lines 1104-1120),
`calculate_retail_statements` revenue/COGS loop (lines 326-339) and
`calculate_service_statements` revenue/COGS loop (lines 812-824). -/

/-- A SaaS plan after `safe_float` parsing of price, users, costPerUser. -/
structure SaaSPlan where
  price : ℚ
  users : ℚ
  costPerUser : ℚ
deriving DecidableEq

/-- The plan filter of `calculate_saas_statements`:
`price > 0 and users > 0 and cost_per_user >= 0`. -/
def validPlanB (p : SaaSPlan) : Bool :=
  decide (0 < p.price) && decide (0 < p.users) && decide (0 ≤ p.costPerUser)

/-- The defensive input validation of `calculate_saas_statements`: raise when
no plans were given, filter to valid plans, raise when none is valid. -/
def saasValidatePlans (plans : List SaaSPlan) : Except String (List SaaSPlan) :=
  if plans.isEmpty then
    .error "No SaaS plans provided. Please add at least one plan with valid data."
  else
    let valid_plans := plans.filter validPlanB
    if valid_plans.isEmpty then
      .error "All SaaS plans are missing required fields or contain invalid numbers. Each plan must have a valid price, users, and cost per user."
    else .ok valid_plans

/-- A retail product line (price, cost, units, growthRate as parsed floats). -/
structure Product where
  price : ℚ
  cost : ℚ
  units : ℚ
  growthRate : ℚ
deriving DecidableEq

/-- A service line (price, cost, clients, growth as parsed floats). -/
structure ServiceLine where
  price : ℚ
  cost : ℚ
  clients : ℚ
  growth : ℚ
deriving DecidableEq

/-- `annualize_units`: multiply by 12 when the revenue input type is monthly. -/
def annualizeUnits (revenue_input_type : String) (v : ℚ) : ℚ :=
  if revenue_input_type = "monthly" then v * 12 else v

/-- The retail per-year revenue array: each product compounds at its own
growth rate, `price * units * (1+growth)^year`, summed across products. -/
def retailRevenueForecast (products : List Product) (rit : String)
    (total_years : ℕ) : List ℚ :=
  (List.range total_years).map (fun year =>
    (products.map (fun p =>
      p.price * annualizeUnits rit p.units * (1 + p.growthRate / 100) ^ year)).sum)

/-- The retail per-year COGS array: `cost * units * (1+growth)^year` summed. -/
def retailCogsForecast (products : List Product) (rit : String)
    (total_years : ℕ) : List ℚ :=
  (List.range total_years).map (fun year =>
    (products.map (fun p =>
      p.cost * annualizeUnits rit p.units * (1 + p.growthRate / 100) ^ year)).sum)

/-- The service per-year revenue array (`price * clients * (1+growth)^year`). -/
def serviceRevenueForecast (services : List ServiceLine) (rit : String)
    (total_years : ℕ) : List ℚ :=
  (List.range total_years).map (fun year =>
    (services.map (fun s =>
      s.price * annualizeUnits rit s.clients * (1 + s.growth / 100) ^ year)).sum)

/-- The service per-year COGS array (`cost * clients * (1+growth)^year`). -/
def serviceCogsForecast (services : List ServiceLine) (rit : String)
    (total_years : ℕ) : List ℚ :=
  (List.range total_years).map (fun year =>
    (services.map (fun s =>
      s.cost * annualizeUnits rit s.clients * (1 + s.growth / 100) ^ year)).sum)

theorem range_map_const {α : Type*} (n : ℕ) (c : α) :
    (List.range n).map (fun _ => c) = List.replicate n c := by
  induction n with
  | zero => rfl
  | succ n ih =>
      rw [List.range_succ, List.map_append, ih, List.replicate_succ']
      rfl

/-- C7: SaaS statement construction raises (with a human-readable message)
exactly when no plan satisfies `price > 0 ∧ users > 0 ∧ cost_per_user ≥ 0`,
while the retail and service builders accept empty product/service lists and
produce all-zero revenue and COGS arrays instead of raising. -/
theorem C7_saas_validation (plans : List SaaSPlan) (rit rit2 : String)
    (ty ty2 : ℕ) :
    ((∃ msg, saasValidatePlans plans = .error msg) ↔
      ∀ p ∈ plans, ¬ (0 < p.price ∧ 0 < p.users ∧ 0 ≤ p.costPerUser)) ∧
    retailRevenueForecast [] rit ty = List.replicate ty 0 ∧
    retailCogsForecast [] rit ty = List.replicate ty 0 ∧
    serviceRevenueForecast [] rit2 ty2 = List.replicate ty2 0 ∧
    serviceCogsForecast [] rit2 ty2 = List.replicate ty2 0 := by
  have hchar : (∃ msg, saasValidatePlans plans = .error msg) ↔
      plans.filter validPlanB = [] := by
    rcases plans with _ | ⟨p, ps⟩
    · simp [saasValidatePlans]
    · rcases hv : (p :: ps).filter validPlanB with _ | ⟨q, qs⟩
      · simp [saasValidatePlans, hv]
      · simp [saasValidatePlans, hv]
  refine ⟨?_, ?_, ?_, ?_, ?_⟩
  · rw [hchar, List.filter_eq_nil_iff]
    constructor
    · intro h q hq
      have := h q hq
      simp only [validPlanB, Bool.and_eq_true, decide_eq_true_eq] at this
      tauto
    · intro h q hq
      have := h q hq
      simp only [validPlanB, Bool.and_eq_true, decide_eq_true_eq]
      tauto
  · simp [retailRevenueForecast, range_map_const]
  · simp [retailCogsForecast, range_map_const]
  · simp [serviceRevenueForecast, range_map_const]
  · simp [serviceCogsForecast, range_map_const]

/-- Witness for C7: one invalid plan (price 0) still raises; a valid plan
does not. -/
theorem C7_saas_validation_witness :
    (∃ msg, saasValidatePlans [⟨0, 5, 2⟩] = .error msg) ∧
    retailRevenueForecast [] "monthly" 3 = List.replicate 3 0 :=
  ⟨((C7_saas_validation [⟨0, 5, 2⟩] "monthly" "monthly" 3 3).1).mpr
      (by intro p hp; simp only [List.mem_singleton] at hp; subst hp; norm_num),
    (C7_saas_validation [] "monthly" "monthly" 3 3).2.1⟩

/-! ### Scenario engine
`apply_scenario_to_forecast` (dcf_calculation.py, lines 285-359) and the
zero-delta base scenario of `calculate_scenario_comparison` (lines 362-395).
Forecast-year dicts are embedded as records; fields read with
`.get(key, 0)` are plain rationals (a missing key reads as 0), fields whose
presence matters (`tax_rate`, read with default `0.25`; `inventory` and
`accounts_receivable`, guarded by `in`) are `Option ℚ`. -/

/-- One year of a base forecast, with the fields
`apply_scenario_to_forecast` reads or writes. -/
structure ForecastYear where
  revenue : ℚ
  cogs : ℚ
  operating_expenses : ℚ
  ebit : ℚ
  capex : ℚ
  other_income : ℚ
  interest_expense : ℚ
  depreciation : ℚ
  change_in_working_capital : ℚ
  tax_rate : Option ℚ
  inventory : Option ℚ
  accounts_receivable : Option ℚ
  ebt : ℚ
  tax_expense : ℚ
  net_income : ℚ
  free_cash_flow : ℚ
deriving DecidableEq

/-- The percentage deltas of a scenario (`scenario_values.get(key, 0)`). -/
structure ScenarioValues where
  revenueGrowth : ℚ
  operatingMargin : ℚ
  capex : ℚ
  workingCapitalDays : ℚ
  taxRate : ℚ
  wacc : ℚ
  terminalGrowth : ℚ
deriving DecidableEq

/-- The all-zero deltas used for the base scenario in
`calculate_scenario_comparison`. -/
def zeroScenario : ScenarioValues := ⟨0, 0, 0, 0, 0, 0, 0⟩

/-- The loop body of `apply_scenario_to_forecast` for one year.
`prevRevenue` is `some` of the previous *adjusted* year's revenue for
`i > 0`, and `none` for `i = 0`. -/
def applyScenarioYear (sv : ScenarioValues) (prevRevenue : Option ℚ)
    (y : ForecastYear) : ForecastYear :=
  let revenue_growth_adjustment := sv.revenueGrowth / 100
  let revenue1 :=
    match prevRevenue with
    | some prev => prev * (1 + revenue_growth_adjustment)
    | none => y.revenue
  let operating_margin_adjustment := sv.operatingMargin / 100
  let opex1 :=
    if 0 < revenue1 then max 0 (y.operating_expenses * (1 - operating_margin_adjustment))
    else y.operating_expenses
  let ebit1 := if 0 < revenue1 then revenue1 - y.cogs - opex1 else y.ebit
  let capex1 := y.capex * (1 + sv.capex / 100)
  let wca := sv.workingCapitalDays / 100
  let inventory1 := y.inventory.map (fun v => v * (1 + wca))
  let ar1 := y.accounts_receivable.map (fun v => v * (1 + wca))
  let tax_rate1 := max 0 (min 1 (y.tax_rate.getD (1/4) + sv.taxRate / 100))
  let ebt1 := ebit1 + y.other_income - y.interest_expense
  let tax1 := ebt1 * tax_rate1
  let net_income1 := ebt1 - tax1
  let fcf1 := net_income1 + y.depreciation - capex1 - y.change_in_working_capital
  { y with
      revenue := revenue1, operating_expenses := opex1, ebit := ebit1,
      capex := capex1, inventory := inventory1, accounts_receivable := ar1,
      tax_rate := some tax_rate1, ebt := ebt1, tax_expense := tax1,
      net_income := net_income1, free_cash_flow := fcf1 }

/-- The fold of `apply_scenario_to_forecast` over the years, threading the
previous adjusted year's revenue. -/
def applyScenarioGo (sv : ScenarioValues) :
    Option ℚ → List ForecastYear → List ForecastYear
  | _, [] => []
  | prev, y :: rest =>
      let y1 := applyScenarioYear sv prev y
      y1 :: applyScenarioGo sv (some y1.revenue) rest

/-- `apply_scenario_to_forecast(base_forecast, scenario_values)`. -/
def apply_scenario_to_forecast (base_forecast : List ForecastYear)
    (sv : ScenarioValues) : List ForecastYear :=
  applyScenarioGo sv none base_forecast

/-- A forecast year that is internally consistent with the engine's own
recomputation formulas (positive revenue, non-negative operating expenses,
an explicit tax rate within [0, 1], and derived ebit/ebt/tax/net/FCF). -/
def consistentYear (y : ForecastYear) : Prop :=
  0 < y.revenue ∧ 0 ≤ y.operating_expenses ∧
  y.ebit = y.revenue - y.cogs - y.operating_expenses ∧
  y.tax_rate.isSome = true ∧
  0 ≤ y.tax_rate.getD (1/4) ∧ y.tax_rate.getD (1/4) ≤ 1 ∧
  y.ebt = y.ebit + y.other_income - y.interest_expense ∧
  y.tax_expense = y.ebt * y.tax_rate.getD (1/4) ∧
  y.net_income = y.ebt - y.tax_expense ∧
  y.free_cash_flow = y.net_income + y.depreciation - y.capex - y.change_in_working_capital

instance (y : ForecastYear) : Decidable (consistentYear y) := by
  unfold consistentYear; infer_instance

theorem applyScenarioYear_zero_fixed (y : ForecastYear) (prev : Option ℚ)
    (hy : consistentYear y) (hprev : prev = none ∨ prev = some y.revenue) :
    applyScenarioYear zeroScenario prev y = y := by
  obtain ⟨hrev, hopex, hebit, htr, htr0, htr1, hebt, htax, hnet, hfcf⟩ := hy
  obtain ⟨t, ht⟩ := Option.isSome_iff_exists.mp htr
  rcases y with ⟨rev, cogs, opex, ebit, capex, oi, ie, dep, dwc, trate, inv, ar, ebt, te, ni, fcf⟩
  simp only at hrev hopex hebit htr0 htr1 hebt htax hnet hfcf ht
  subst ht
  simp only [Option.getD_some] at htr0 htr1
  rcases hprev with h | h <;> subst h
  all_goals
    simp only [applyScenarioYear, zeroScenario, ForecastYear.mk.injEq]
    norm_num
    simp only [Option.getD_some] at htax
    subst hebit
    subst hebt
    subst htax
    subst hnet
    subst hfcf
    have hmax : (0 : ℚ) ⊔ opex = opex := sup_eq_right.mpr hopex
    have htmm : (0 : ℚ) ⊔ 1 ⊓ t = t := by
      rw [inf_eq_right.mpr htr1, sup_eq_right.mpr htr0]
    simp only [if_pos hrev, hmax, htmm]
    exact ⟨fun _ => hopex, fun _ => trivial, trivial, by ring_nf, by ring_nf, by ring_nf, by ring_nf⟩


theorem applyScenarioGo_zero_id (R : ℚ) :
    ∀ (l : List ForecastYear) (prev : Option ℚ),
      (∀ y ∈ l, consistentYear y) → (∀ y ∈ l, y.revenue = R) →
      (prev = none ∨ prev = some R) →
      applyScenarioGo zeroScenario prev l = l
  | [], _, _, _, _ => rfl
  | y :: rest, prev, hcons, hR, hprev => by
      have hy : consistentYear y := hcons y (List.mem_cons_self y rest)
      have hyR : y.revenue = R := hR y (List.mem_cons_self y rest)
      have hfix : applyScenarioYear zeroScenario prev y = y :=
        applyScenarioYear_zero_fixed y prev hy (by
          rcases hprev with h | h
          · exact Or.inl h
          · exact Or.inr (by rw [h, hyR]))
      have htail := applyScenarioGo_zero_id R rest (some y.revenue)
        (fun z hz => hcons z (List.mem_cons_of_mem y hz))
        (fun z hz => hR z (List.mem_cons_of_mem y hz))
        (Or.inr (by rw [hyR]))
      simp only [applyScenarioGo, hfix, htail]

/-- C5 as amended: applying the zero-delta scenario reproduces the base
forecast (hence its revenue, net_income and free_cash_flow arrays) exactly
when every base year is internally consistent with the engine's own
recomputation formulas and the revenue is constant across years; the engine
rebuilds `revenue[i] := revenue[i-1] * (1 + 0)` for `i > 0`, so a
non-constant revenue series is flattened instead of reproduced. -/
theorem C5_zero_scenario (base : List ForecastYear) (R : ℚ)
    (hcons : ∀ y ∈ base, consistentYear y)
    (hR : ∀ y ∈ base, y.revenue = R) :
    apply_scenario_to_forecast base zeroScenario = base ∧
    (apply_scenario_to_forecast base zeroScenario).map ForecastYear.revenue =
      base.map ForecastYear.revenue ∧
    (apply_scenario_to_forecast base zeroScenario).map ForecastYear.net_income =
      base.map ForecastYear.net_income ∧
    (apply_scenario_to_forecast base zeroScenario).map ForecastYear.free_cash_flow =
      base.map ForecastYear.free_cash_flow := by
  have h : apply_scenario_to_forecast base zeroScenario = base :=
    applyScenarioGo_zero_id R base none hcons hR (Or.inl rfl)
  exact ⟨h, by rw [h], by rw [h], by rw [h]⟩

def c5y0 : ForecastYear :=
  { revenue := 100, cogs := 0, operating_expenses := 0, ebit := 100, capex := 0,
    other_income := 0, interest_expense := 0, depreciation := 0,
    change_in_working_capital := 0, tax_rate := some (1/4), inventory := none,
    accounts_receivable := none, ebt := 100, tax_expense := 25, net_income := 75,
    free_cash_flow := 75 }

def c5y1 : ForecastYear :=
  { c5y0 with
    revenue := 110, ebit := 110, ebt := 110, tax_expense := 110/4,
    net_income := 330/4, free_cash_flow := 330/4 }

/-- C5 counterexample: a base forecast whose two consistent years have
revenues 100 and 110 is not reproduced by the zero-delta scenario - its
adjusted revenue array is [100, 100], not [100, 110]. -/
theorem C5_counterexample :
    (apply_scenario_to_forecast [c5y0, c5y1] zeroScenario).map ForecastYear.revenue ≠
      [c5y0, c5y1].map ForecastYear.revenue := by
  norm_num [apply_scenario_to_forecast, applyScenarioGo, applyScenarioYear,
    zeroScenario, c5y0, c5y1]

/-- Witness for C5's amended theorem: a constant-revenue consistent
two-year forecast is reproduced exactly. -/
theorem C5_zero_scenario_witness :
    apply_scenario_to_forecast [c5y0, c5y0] zeroScenario = [c5y0, c5y0] ∧
    (apply_scenario_to_forecast [c5y0, c5y0] zeroScenario).map ForecastYear.revenue =
      [c5y0, c5y0].map ForecastYear.revenue ∧
    (apply_scenario_to_forecast [c5y0, c5y0] zeroScenario).map ForecastYear.net_income =
      [c5y0, c5y0].map ForecastYear.net_income ∧
    (apply_scenario_to_forecast [c5y0, c5y0] zeroScenario).map ForecastYear.free_cash_flow =
      [c5y0, c5y0].map ForecastYear.free_cash_flow :=
  C5_zero_scenario [c5y0, c5y0] 100
    (by
      intro y hy
      simp only [List.mem_cons, List.not_mem_nil, or_false] at hy
      rcases hy with h | h <;> subst h <;>
        norm_num [consistentYear, c5y0])
    (by
      intro y hy
      simp only [List.mem_cons, List.not_mem_nil, or_false] at hy
      rcases hy with h | h <;> subst h <;> norm_num [c5y0])


/-! ### Retail income statement and loan-interest application
`calculate_retail_statements` (statement_calculator.py): income statement
construction (lines 363-389), the per-year interest/principal accumulators
(lines 392-454) and the interest adjustment loop (lines 455-462). -/

/-- One income statement row (the numeric fields of the Python dict). -/
structure IncomeRow where
  revenue : ℚ
  cogs : ℚ
  gross_profit : ℚ
  operating_expenses : ℚ
  other_income : ℚ
  investment_income : ℚ
  other_costs : ℚ
  ebitda : ℚ
  depreciation_amortization : ℚ
  ebit : ℚ
  interest_expense : ℚ
  ebt : ℚ
  taxes : ℚ
  net_income : ℚ
deriving DecidableEq, Inhabited

/-- The income statement row built for one year (interest_expense is 0 at
this stage; it is filled in later from the amortization schedules). -/
def buildIncomeRow (revenue cogs opex other_income investment_income
    other_costs da tax_rate : ℚ) : IncomeRow :=
  let gross_profit := revenue - cogs
  let ebitda := gross_profit - opex + other_income + investment_income - other_costs
  let ebit := ebitda - da
  let interest_expense : ℚ := 0
  let ebt := ebit - interest_expense
  let taxes := if 0 < ebt then ebt * tax_rate else 0
  let net_income := ebt - taxes
  ⟨revenue, cogs, gross_profit, opex, other_income, investment_income,
    other_costs, ebitda, da, ebit, interest_expense, ebt, taxes, net_income⟩

/-- The income statement loop `for i in range(total_years)`; the
depreciation read has the explicit bounds check of the source
(`depreciation[i] if i < len(depreciation) else 0`). -/
def buildIncomeStatement (revenue cogs expenses other_income
    investment_income other_costs : ℕ → ℚ) (depreciation : List ℚ)
    (tax_rate : ℚ) (total_years : ℕ) : List IncomeRow :=
  (List.range total_years).map (fun i =>
    buildIncomeRow (revenue i) (cogs i) (expenses i) (other_income i)
      (investment_income i) (other_costs i)
      (if i < depreciation.length then depreciation.getD i 0 else 0) tax_rate)

/-- A loan's amortization table together with its start year index
(`loan_start_idx`, already clamped to `≥ 0`). -/
structure LoanSchedule where
  start : ℕ
  table : List AmortRow

/-- `acc[idx] += v` with the source's bounds guard
(`if 0 <= year_idx < forecast_years`): `List.set` is a no-op out of range. -/
def bumpAt (acc : List ℚ) (idx : ℕ) (v : ℚ) : List ℚ :=
  acc.set idx (acc.getD idx 0 + v)

/-- The row loop `for i, row in enumerate(amort_table)` accumulating
`f row` into year `start + i`. -/
def accumulateRows (start : ℕ) (f : AmortRow → ℚ) :
    List AmortRow → ℕ → List ℚ → List ℚ
  | [], _, acc => acc
  | row :: rest, i, acc =>
      accumulateRows start f rest (i+1) (bumpAt acc (start + i) (f row))

/-- `total_interest_by_year`: a length-`forecast_years` accumulator over all
loans. -/
def totalInterestByYear (forecast_years : ℕ) (loans : List LoanSchedule) : List ℚ :=
  loans.foldl (fun acc l => accumulateRows l.start AmortRow.interest l.table 0 acc)
    (List.replicate forecast_years 0)

/-- `total_principal_by_year`: a length-`forecast_years` accumulator over all
loans. -/
def totalPrincipalByYear (forecast_years : ℕ) (loans : List LoanSchedule) : List ℚ :=
  loans.foldl (fun acc l => accumulateRows l.start AmortRow.principal l.table 0 acc)
    (List.replicate forecast_years 0)

/-- The per-row interest adjustment of lines 457-462: set interest_expense,
subtract it from ebt, recompute taxes and net income. -/
def adjustRowForInterest (row : IncomeRow) (interest tax_rate : ℚ) : IncomeRow :=
  let ebt := row.ebt - interest
  let taxes := if 0 < ebt then ebt * tax_rate else 0
  { row with
    interest_expense := interest, ebt := ebt, taxes := taxes,
    net_income := ebt - taxes }

/-- The adjustment loop `for i in range(forecast_years)`: rows with index
`< forecast_years` are adjusted, later rows are left untouched. -/
def applyInterestGo (interest : List ℚ) (tax_rate : ℚ) (forecast_years : ℕ) :
    ℕ → List IncomeRow → List IncomeRow
  | _, [] => []
  | i, row :: rest =>
      (if i < forecast_years then
        adjustRowForInterest row (interest.getD i 0) tax_rate
      else row) :: applyInterestGo interest tax_rate forecast_years (i+1) rest

/-- Adding the interest expense to the income statement. -/
def applyInterestToIncome (rows : List IncomeRow) (interest : List ℚ)
    (tax_rate : ℚ) (forecast_years : ℕ) : List IncomeRow :=
  applyInterestGo interest tax_rate forecast_years 0 rows

theorem accumulateRows_length (start : ℕ) (f : AmortRow → ℚ) :
    ∀ (rows : List AmortRow) (i : ℕ) (acc : List ℚ),
      (accumulateRows start f rows i acc).length = acc.length
  | [], _, _ => rfl
  | row :: rest, i, acc => by
      rw [accumulateRows, accumulateRows_length start f rest (i+1), bumpAt,
        List.length_set]

theorem totalInterestByYear_length (N : ℕ) (loans : List LoanSchedule) :
    (totalInterestByYear N loans).length = N := by
  rw [totalInterestByYear]
  have h : ∀ (ls : List LoanSchedule) (acc : List ℚ),
      (ls.foldl (fun acc l =>
        accumulateRows l.start AmortRow.interest l.table 0 acc) acc).length =
        acc.length := by
    intro ls
    induction ls with
    | nil => exact fun acc => rfl
    | cons l rest ih =>
        intro acc
        rw [List.foldl_cons, ih, accumulateRows_length]
  rw [h, List.length_replicate]

theorem totalPrincipalByYear_length (N : ℕ) (loans : List LoanSchedule) :
    (totalPrincipalByYear N loans).length = N := by
  rw [totalPrincipalByYear]
  have h : ∀ (ls : List LoanSchedule) (acc : List ℚ),
      (ls.foldl (fun acc l =>
        accumulateRows l.start AmortRow.principal l.table 0 acc) acc).length =
        acc.length := by
    intro ls
    induction ls with
    | nil => exact fun acc => rfl
    | cons l rest ih =>
        intro acc
        rw [List.foldl_cons, ih, accumulateRows_length]
  rw [h, List.length_replicate]

theorem applyInterestGo_length (interest : List ℚ) (tax_rate : ℚ) (N : ℕ) :
    ∀ (i : ℕ) (rows : List IncomeRow),
      (applyInterestGo interest tax_rate N i rows).length = rows.length
  | _, [] => rfl
  | i, row :: rest => by
      rw [applyInterestGo, List.length_cons, List.length_cons,
        applyInterestGo_length interest tax_rate N (i+1) rest]

theorem applyInterestGo_get_late (interest : List ℚ) (tax_rate : ℚ) (N : ℕ) :
    ∀ (rows : List IncomeRow) (i j : ℕ), N ≤ i + j →
      (applyInterestGo interest tax_rate N i rows).get? j = rows.get? j
  | [], _, _, _ => rfl
  | row :: rest, i, j, h => by
      rcases j with _ | j
      · have : ¬ i < N := by omega
        simp only [applyInterestGo, if_neg this, List.get?_cons_zero]
      · simp only [applyInterestGo, List.get?_cons_succ]
        exact applyInterestGo_get_late interest tax_rate N rest (i+1) j (by omega)

theorem buildIncomeStatement_get (revenue cogs expenses other_income
    investment_income other_costs : ℕ → ℚ) (depreciation : List ℚ)
    (tax_rate : ℚ) (total_years i : ℕ) (h : i < total_years) :
    (buildIncomeStatement revenue cogs expenses other_income investment_income
      other_costs depreciation tax_rate total_years).get? i =
      some (buildIncomeRow (revenue i) (cogs i) (expenses i) (other_income i)
        (investment_income i) (other_costs i)
        (if i < depreciation.length then depreciation.getD i 0 else 0) tax_rate) := by
  rw [buildIncomeStatement, List.get?_map, List.get?_range h]
  rfl

/-- C10: with forecast horizon `N`, the interest and principal accumulators
have length `N` while the income statement has `N + 1` rows, so the final
income-statement row (index `N`) is left untouched by the interest
adjustment loop: its interest_expense is 0 and its taxes and net income are
computed from `ebt = ebit` without subtracting any loan interest, whatever
loans (and still-active amortization schedules) are present. -/
theorem C10_final_year_no_interest (revenue cogs expenses other_income
    investment_income other_costs : ℕ → ℚ) (depreciation : List ℚ)
    (tax_rate : ℚ) (N : ℕ) (loans : List LoanSchedule) :
    (totalInterestByYear N loans).length = N ∧
    (totalPrincipalByYear N loans).length = N ∧
    (buildIncomeStatement revenue cogs expenses other_income investment_income
      other_costs depreciation tax_rate (N+1)).length = N + 1 ∧
    (applyInterestToIncome
      (buildIncomeStatement revenue cogs expenses other_income investment_income
        other_costs depreciation tax_rate (N+1))
      (totalInterestByYear N loans) tax_rate N).get? N =
      (buildIncomeStatement revenue cogs expenses other_income investment_income
        other_costs depreciation tax_rate (N+1)).get? N ∧
    (∃ row, (applyInterestToIncome
      (buildIncomeStatement revenue cogs expenses other_income investment_income
        other_costs depreciation tax_rate (N+1))
      (totalInterestByYear N loans) tax_rate N).get? N = some row ∧
      row.interest_expense = 0 ∧ row.ebt = row.ebit ∧
      row.taxes = (if 0 < row.ebt then row.ebt * tax_rate else 0) ∧
      row.net_income = row.ebt - row.taxes) := by
  have hget := buildIncomeStatement_get revenue cogs expenses other_income
    investment_income other_costs depreciation tax_rate (N+1) N (by omega)
  have hlate := applyInterestGo_get_late (totalInterestByYear N loans) tax_rate N
    (buildIncomeStatement revenue cogs expenses other_income investment_income
      other_costs depreciation tax_rate (N+1)) 0 N (by omega)
  refine ⟨totalInterestByYear_length N loans, totalPrincipalByYear_length N loans,
    ?_, hlate, ?_⟩
  · rw [buildIncomeStatement, List.length_map, List.length_range]
  · refine ⟨_, by rw [applyInterestToIncome]; rw [hlate, hget], rfl, ?_, rfl, rfl⟩
    show (buildIncomeRow (revenue N) (cogs N) (expenses N) (other_income N)
      (investment_income N) (other_costs N)
      (if N < depreciation.length then depreciation.getD N 0 else 0) tax_rate).ebt = _
    simp [buildIncomeRow]

/-- Witness for C10 at concrete inputs: horizon 2, one loan schedule whose
table is still active at year index 2. -/
theorem C10_final_year_no_interest_witness :
    (totalInterestByYear 2 [⟨0, generate_amortization_table 300 (1/10) 3 1⟩]).length = 2 ∧
    (totalPrincipalByYear 2 [⟨0, generate_amortization_table 300 (1/10) 3 1⟩]).length = 2 ∧
    (buildIncomeStatement (fun _ => 50) (fun _ => 10) (fun _ => 5) (fun _ => 0)
      (fun _ => 0) (fun _ => 0) [3, 3, 3] (1/4) (2+1)).length = 2 + 1 ∧
    (applyInterestToIncome
      (buildIncomeStatement (fun _ => 50) (fun _ => 10) (fun _ => 5) (fun _ => 0)
        (fun _ => 0) (fun _ => 0) [3, 3, 3] (1/4) (2+1))
      (totalInterestByYear 2 [⟨0, generate_amortization_table 300 (1/10) 3 1⟩])
      (1/4) 2).get? 2 =
      (buildIncomeStatement (fun _ => 50) (fun _ => 10) (fun _ => 5) (fun _ => 0)
        (fun _ => 0) (fun _ => 0) [3, 3, 3] (1/4) (2+1)).get? 2 ∧
    (∃ row, (applyInterestToIncome
      (buildIncomeStatement (fun _ => 50) (fun _ => 10) (fun _ => 5) (fun _ => 0)
        (fun _ => 0) (fun _ => 0) [3, 3, 3] (1/4) (2+1))
      (totalInterestByYear 2 [⟨0, generate_amortization_table 300 (1/10) 3 1⟩])
      (1/4) 2).get? 2 = some row ∧
      row.interest_expense = 0 ∧ row.ebt = row.ebit ∧
      row.taxes = (if 0 < row.ebt then row.ebt * (1/4) else 0) ∧
      row.net_income = row.ebt - row.taxes) :=
  C10_final_year_no_interest (fun _ => 50) (fun _ => 10) (fun _ => 5) (fun _ => 0)
    (fun _ => 0) (fun _ => 0) [3, 3, 3] (1/4) 2
    [⟨0, generate_amortization_table 300 (1/10) 3 1⟩]

/-! ### Retail cash-flow statement
`calculate_retail_statements` (statement_calculator.py, lines 464-568):
the indirect-method cash-flow loop. The arrays computed earlier in the
function (income statement, revenue, cogs, capex, loan proceeds,
amortization tables, per-year investment flows) are the loop's inputs. -/

/-- One cash-flow statement year (the numeric fields of the Python dict). -/
structure CashFlowYear where
  net_cash_from_operating_activities : ℚ
  net_cash_from_investing_activities : ℚ
  net_cash_from_financing_activities : ℚ
  net_change_in_cash : ℚ
  opening_cash_balance : ℚ
  closing_cash_balance : ℚ
deriving DecidableEq

/-- The inputs of the retail cash-flow loop. -/
structure RetailCFInputs where
  forecast_years : ℕ
  self_funding : ℚ
  base_loans : ℚ
  capex : List ℚ
  income_statement : List IncomeRow
  revenue : List ℚ
  cogs : List ℚ
  credit_sales_percent : ℚ
  ar_days : ℚ
  ap_days : ℚ
  inventory_days : ℚ
  investment_outflows : ℕ → ℚ
  investment_inflows : ℕ → ℚ
  loan_proceeds : List ℚ
  amortization_tables : List (List AmortRow)

/-- `loan_repayment` for year `i`: `-amort_table[i]['principal']` summed over
all tables whose schedule is still running (`if i < len(amort_table)`). -/
def loanRepayment (tables : List (List AmortRow)) (i : ℕ) : ℚ :=
  tables.foldl (fun acc t =>
    if i < t.length then acc - (t.getD i default).principal else acc) 0

/-- The body of `for i in range(forecast_years)` (lines 506-568), threading
`opening_cash`, `prev_ar`, `prev_ap`, `prev_inventory`; `fuel` counts the
remaining iterations. -/
def retailCFLoop (inp : RetailCFInputs) :
    ℕ → ℕ → ℚ → ℚ → ℚ → ℚ → List CashFlowYear
  | 0, _, _, _, _, _ => []
  | (fuel+1), i, opening_cash, prev_ar, prev_ap, prev_inventory =>
      let net_income := (inp.income_statement.getD i default).net_income
      let da := (inp.income_statement.getD i default).depreciation_amortization
      let credit_sales := inp.revenue.getD i 0 * inp.credit_sales_percent
      let ar := if 0 < inp.ar_days then credit_sales * inp.ar_days / 365 else 0
      let cogs_val := inp.cogs.getD i 0
      let inventory :=
        if 0 < inp.inventory_days then cogs_val * inp.inventory_days / 365 else 0
      let ap := if 0 < inp.ap_days then cogs_val * inp.ap_days / 365 else 0
      let change_ar := ar - prev_ar
      let change_ap := ap - prev_ap
      let change_inventory := inventory - prev_inventory
      let net_operating := net_income + da + (-change_ar) + change_ap + (-change_inventory)
      let net_investing := (-(inp.capex.getD i 0)) +
        (if inp.investment_outflows i ≠ 0 then -(inp.investment_outflows i) else 0) +
        (if inp.investment_inflows i ≠ 0 then inp.investment_inflows i else 0)
      let net_financing := inp.loan_proceeds.getD i 0 +
        loanRepayment inp.amortization_tables i
      let net_change_in_cash := net_operating + net_investing + net_financing
      let closing_cash := opening_cash + net_change_in_cash
      ⟨net_operating, net_investing, net_financing, net_change_in_cash,
        opening_cash, closing_cash⟩ ::
        retailCFLoop inp fuel (i+1) closing_cash ar ap inventory

/-- The cash-flow statement: the loop starts at year 0 with
`opening_cash = self_funding + base_loans - capex[0]` and zero previous
working-capital levels. -/
def retailCashFlow (inp : RetailCFInputs) : List CashFlowYear :=
  retailCFLoop inp inp.forecast_years 0
    (inp.self_funding + inp.base_loans - inp.capex.getD 0 0) 0 0 0

theorem retailCFLoop_length (inp : RetailCFInputs) :
    ∀ (fuel i : ℕ) (o a p v : ℚ),
      (retailCFLoop inp fuel i o a p v).length = fuel
  | 0, _, _, _, _, _ => rfl
  | (fuel+1), i, o, a, p, v => by
      rw [retailCFLoop, List.length_cons, retailCFLoop_length inp fuel]

theorem retailCFLoop_rows (inp : RetailCFInputs) :
    ∀ (fuel i : ℕ) (o a p v : ℚ), ∀ r ∈ retailCFLoop inp fuel i o a p v,
      r.closing_cash_balance = r.opening_cash_balance + r.net_change_in_cash
  | 0, _, _, _, _, _ => by simp [retailCFLoop]
  | (fuel+1), i, o, a, p, v => by
      intro r hr
      simp only [retailCFLoop, List.mem_cons] at hr
      rcases hr with h | h
      · subst h; rfl
      · exact retailCFLoop_rows inp fuel (i+1) _ _ _ _ r h

theorem retailCFLoop_get_zero (inp : RetailCFInputs) :
    ∀ (fuel i : ℕ) (o a p v : ℚ) (r : CashFlowYear),
      (retailCFLoop inp fuel i o a p v).get? 0 = some r →
      r.opening_cash_balance = o
  | 0, _, _, _, _, _, _ => by simp [retailCFLoop]
  | (fuel+1), i, o, a, p, v, r => by
      intro h
      simp only [retailCFLoop, List.get?_cons_zero, Option.some.injEq] at h
      subst h; rfl

theorem retailCFLoop_chain (inp : RetailCFInputs) :
    ∀ (fuel i : ℕ) (o a p v : ℚ) (j : ℕ) (rj rk : CashFlowYear),
      (retailCFLoop inp fuel i o a p v).get? j = some rj →
      (retailCFLoop inp fuel i o a p v).get? (j+1) = some rk →
      rk.opening_cash_balance = rj.closing_cash_balance
  | 0, _, _, _, _, _, j, _, _ => by simp [retailCFLoop]
  | (fuel+1), i, o, a, p, v, j, rj, rk => by
      intro hj hk
      rcases j with _ | j
      · simp only [retailCFLoop, List.get?_cons_zero, Option.some.injEq] at hj
        simp only [retailCFLoop, List.get?_cons_succ] at hk
        have := retailCFLoop_get_zero inp fuel (i+1) _ _ _ _ rk hk
        subst hj
        exact this
      · simp only [retailCFLoop, List.get?_cons_succ] at hj hk
        exact retailCFLoop_chain inp fuel (i+1) _ _ _ _ j rj rk hj hk

/-- C3: in the retail cash-flow statement, every year satisfies
`closing_cash = opening_cash + net_change_in_cash`; the opening cash of year
`y+1` equals the closing cash of year `y`; and year 0's opening cash is
`self_funding + base_loans - capex[0]` (self-funding plus total loan amounts
minus year-0 CapEx). -/
theorem C3_cash_flow_chaining (inp : RetailCFInputs) :
    (∀ r ∈ retailCashFlow inp,
      r.closing_cash_balance = r.opening_cash_balance + r.net_change_in_cash) ∧
    (∀ (y : ℕ) (ry rz : CashFlowYear),
      (retailCashFlow inp).get? y = some ry →
      (retailCashFlow inp).get? (y+1) = some rz →
      rz.opening_cash_balance = ry.closing_cash_balance) ∧
    (1 ≤ inp.forecast_years →
      ((retailCashFlow inp).get? 0).map CashFlowYear.opening_cash_balance =
        some (inp.self_funding + inp.base_loans - inp.capex.getD 0 0)) := by
  refine ⟨retailCFLoop_rows inp inp.forecast_years 0 _ 0 0 0,
    fun y ry rz hy hz => retailCFLoop_chain inp inp.forecast_years 0 _ 0 0 0 y ry rz hy hz,
    fun hN => ?_⟩
  rcases hl : (retailCashFlow inp).get? 0 with _ | r
  · exfalso
    have hlen : (retailCashFlow inp).length = inp.forecast_years :=
      retailCFLoop_length inp inp.forecast_years 0 _ 0 0 0
    have := List.get?_eq_none.mp hl
    omega
  · rw [Option.map_some']
    exact congrArg some (retailCFLoop_get_zero inp inp.forecast_years 0 _ 0 0 0 r hl)

/-- A concrete input for the C3 witness: horizon 2, self-funding 500, one
loan of 300, year-0 CapEx 100. -/
def c3inp : RetailCFInputs where
  forecast_years := 2
  self_funding := 500
  base_loans := 300
  capex := [100, 0, 0]
  income_statement := buildIncomeStatement (fun _ => 50) (fun _ => 10)
    (fun _ => 5) (fun _ => 0) (fun _ => 0) (fun _ => 0) [3, 3, 3] (1/4) 3
  revenue := [50, 50, 50]
  cogs := [10, 10, 10]
  credit_sales_percent := 1/2
  ar_days := 30
  ap_days := 20
  inventory_days := 10
  investment_outflows := fun _ => 0
  investment_inflows := fun _ => 0
  loan_proceeds := [300, 0, 0]
  amortization_tables := [generate_amortization_table 300 (1/10) 3 1]

/-- Witness for C3 at `c3inp`. -/
theorem C3_cash_flow_chaining_witness :
    1 ≤ c3inp.forecast_years ∧
    ((retailCashFlow c3inp).get? 0).map CashFlowYear.opening_cash_balance =
      some (c3inp.self_funding + c3inp.base_loans - c3inp.capex.getD 0 0) :=
  ⟨by norm_num [c3inp], (C3_cash_flow_chaining c3inp).2.2 (by norm_num [c3inp])⟩

end FinModel

